import Mathlib

/-
  Verification development for the realtime tactile-drawing assistant client.

  The definitions below are a shallow embedding of the TypeScript sources:
  - `RealtimeInteraction` (session driver: lastCoords, stopSession,
    checkPointedPositionVariation, sendPointedPositionIfNecessary,
    sendImgWithPositionAndHotspot, handleDataChannelMessages, disableAudio,
    feedbackAudioDisabled, sendFileContent, getSendableImage)
  - `utils.ts` (blobSizeInKB, checkBlobSize, drawPointedPosition)

  JavaScript numbers are modelled as rationals (ℚ); `number | null` as
  `Option ℚ`.  Canvas/DOM image primitives (resolution reduction, webp
  conversion, per-quality compression, rendering the red marker) are opaque
  in the claims considered here, so they enter the embedding as function
  parameters; the driver logic around them is translated faithfully.
  Side effects on the data channel are recorded as an ordered trace of
  `Event`s; thrown exceptions are modelled with `Except`, and the catch
  handlers of the source become the corresponding error branches.
-/

/- Content blocks of an outgoing conversation item. -/
inductive ContentPart where
  | inputText (text : String)
  | inputImage (imageUrl : String)
deriving DecidableEq, Repr

/- Outgoing JSON messages on the data channel, abstracted to the fields the
   driver actually varies. -/
inductive OutMsg where
  | conversationItemCreate (content : List ContentPart)
  | responseCreate (outputModalities : Option (List String)) (instructions : Option String)
  | sessionUpdate (outputModalities : List String)
deriving DecidableEq, Repr

/- Ordered trace of observable driver actions. -/
inductive Event where
  | setLastCoords (x y : Option ℚ)
  | sendMessage (m : OutMsg)
  | sendData (d : String)
  | sendImage (img : String) (kind : String)
  | startTimer
  | stopSessionCalled
deriving DecidableEq, Repr

/- `lastCoords` field of the driver (`{ lastX, lastY }`). -/
structure Coords where
  lastX : Option ℚ
  lastY : Option ℚ
deriving DecidableEq, Repr

/- Driver state: resource handles are modelled as "held or not" booleans
   (`null` in the source becomes `false`), plus the mutable fields the
   claims touch. -/
structure SessionState where
  peerConnection : Bool
  audioElement : Bool
  localStream : Bool
  dataChannel : Bool
  elements : Bool
  audioResponsesOn : Bool
  grayScaleBase64Template : Option String
  lastCoords : Coords
  imgDimensions : ℚ × ℚ
deriving DecidableEq, Repr

/- The placeholder value stored in `lastCoords` at construction and by
   `resetLastCoords` (source line: `{ lastX: 100000, lastY: 100000 }`). -/
def placeholderCoords : Coords := { lastX := some 100000, lastY := some 100000 }

/- `resetLastCoords()` -/
def resetLastCoords (st : SessionState) : SessionState :=
  { st with lastCoords := placeholderCoords }

/- `handleAudioState(state)`: returns early when UI elements are missing,
   otherwise stores the flag. -/
def handleAudioState (st : SessionState) (state : Bool) : SessionState :=
  if st.elements then { st with audioResponsesOn := state } else st

/- `stopSession()`: closes the data channel, stops the local stream, closes
   the peer connection, removes the audio element, then resets the UI audio
   state (which clears `audioResponsesOn` when elements exist). -/
def stopSession (st : SessionState) : SessionState :=
  handleAudioState
    { st with dataChannel := false, localStream := false,
              peerConnection := false, audioElement := false }
    false

/- `checkPointedPositionVariation(currentX, currentY, lastX, lastY, threshold)` -/
def checkPointedPositionVariation (currentX currentY lastX lastY : Option ℚ)
    (threshold : ℚ) : Bool :=
  -- if even just one of the two coordinates is null, the user is not pointing
  let currNull := currentX.isNone || currentY.isNone
  let lastNull := lastX.isNone || lastY.isNone
  -- not pointing before and not pointing now --> no change
  if currNull && lastNull then false
  -- not pointing before, pointing now --> change
  else if !currNull && lastNull then true
  -- pointing before, not pointing now --> change
  else if currNull && !lastNull then true
  -- pointing before and now --> threshold control
  else
    let diffX := |currentX.getD 0 - lastX.getD 0|
    let diffY := |currentY.getD 0 - lastY.getD 0|
    decide (diffX ≥ threshold) || decide (diffY ≥ threshold)

/- `drawPointedPosition(base64Img, x, y, radius)` from utils.ts: returns the
   image unchanged when either coordinate is null, otherwise renders the
   marker (the canvas drawing itself is the opaque `render` parameter). -/
def drawPointedPosition (render : String → ℚ → ℚ → ℚ → String)
    (base64Img : String) (x y : Option ℚ) (radius : ℚ) : String :=
  match x, y with
  | some xv, some yv => render base64Img xv yv radius
  | _, _ => base64Img

def notPointingText : String := "The user is not pointing any position."

def pointingText : String :=
  "The user is pointing the position represented in this image:"

/- The interpolated hotspot line: empty when the hotspot is falsy. -/
def hotspotText : Option String → String
  | none => ""
  | some h => if h = "" then "" else "It correspond to this hotspot: " ++ h

/- `sendImgWithPositionAndHotspot(currentX, currentY, currentHotspot)`:
   throws when the grayscale template or the data channel is missing;
   builds the "not pointing" item when either coordinate is null, else the
   annotated-image item (with the hotspot line). -/
def sendImgWithPositionAndHotspot (render : String → ℚ → ℚ → ℚ → String)
    (grayScaleBase64Template : Option String) (dataChannel : Bool)
    (currentX currentY : Option ℚ) (currentHotspot : Option String) :
    Except String OutMsg :=
  match grayScaleBase64Template with
  | none => Except.error "Gray scale image template missing"
  | some tmpl =>
    if !dataChannel then Except.error "Data channel missing"
    else if currentX.isNone || currentY.isNone then
      Except.ok (OutMsg.conversationItemCreate [ContentPart.inputText notPointingText])
    else
      let imgWithPosition := drawPointedPosition render tmpl currentX currentY 9
      Except.ok (OutMsg.conversationItemCreate
        [ContentPart.inputText pointingText,
         ContentPart.inputImage imgWithPosition,
         ContentPart.inputText (hotspotText currentHotspot)])

/- `sendPointedPositionIfNecessary()`: the current position and hotspot are
   the values polled from the UI; a throw anywhere in the body is caught and
   answered with `stopSession`. -/
def sendPointedPositionIfNecessary (render : String → ℚ → ℚ → ℚ → String)
    (st : SessionState) (currentX currentY : Option ℚ)
    (currentHotspot : Option String) : SessionState × List Event :=
  -- getCurrentPointedPosition / getCurrentHotspot throw without UI elements
  if !st.elements then (stopSession st, [Event.stopSessionCalled])
  else if checkPointedPositionVariation currentX currentY
            st.lastCoords.lastX st.lastCoords.lastY 5 then
    -- the source assigns `this.lastCoords` first and then calls
    -- sendImgWithPositionAndHotspot; that call reads only the grayscale
    -- template and the data channel, which the assignment leaves untouched
    match sendImgWithPositionAndHotspot render st.grayScaleBase64Template
            st.dataChannel currentX currentY currentHotspot with
    | Except.ok m =>
        ({ st with lastCoords := { lastX := currentX, lastY := currentY } },
         [Event.setLastCoords currentX currentY, Event.sendMessage m])
    | Except.error _ =>
        (stopSession { st with lastCoords := { lastX := currentX, lastY := currentY } },
         [Event.setLastCoords currentX currentY, Event.stopSessionCalled])
  else (st, [])

/- Inbound data-channel messages, abstracted to the dispatched type and the
   error code the driver inspects. -/
structure RealtimeMessage where
  type : String
  errorCode : Option String
deriving DecidableEq, Repr

/- `handleDataChannelMessages(e)`, restricted to the dispatch branches the
   claims are about; the remaining branches only touch logging/UI state and
   are no-ops here. -/
def handleDataChannelMessages (render : String → ℚ → ℚ → ℚ → String)
    (st : SessionState) (msg : RealtimeMessage) (currentX currentY : Option ℚ)
    (currentHotspot : Option String) : SessionState × List Event :=
  if msg.type = "invalid_request_error" then
    (stopSession st, [Event.stopSessionCalled])
  else if msg.type = "error" then
    if msg.errorCode = some "conversation_already_has_active_response" then (st, [])
    else (stopSession st, [Event.stopSessionCalled])
  else if msg.type = "input_audio_buffer.committed" then
    let r := sendPointedPositionIfNecessary render st currentX currentY currentHotspot
    -- `this.dataChannel!.send(...)` throws when the channel is gone
    if r.1.dataChannel then
      (r.1, r.2 ++ [Event.sendMessage (OutMsg.responseCreate none none), Event.startTimer])
    else
      (stopSession r.1, r.2 ++ [Event.stopSessionCalled])
  else (st, [])

/- Predicate on trace events: an outgoing conversation item (the only
   message kind carrying position context). -/
def isConversationSend : Event → Bool
  | Event.sendMessage (OutMsg.conversationItemCreate _) => true
  | _ => false

/-
  Image pipeline (utils.ts + getSendableImage).  A blob is an opaque type;
  the canvas/Compressor primitives are fields of `ImagePipeline`, while the
  size bookkeeping and the quality loop are translated from the source.
-/

/- The canvas/encoding primitives used by `getSendableImage`. -/
structure ImagePipeline (Blob : Type) where
  base64ToBlob : String → Blob
  reduceResolution : Blob → Blob
  toWebp : Blob → Blob
  compressWebpBlob : Blob → ℚ → Blob
  blobSize : Blob → ℚ
  imageToBase64 : Blob → String

/- `blobSizeInKB(blob)`: `blob.size / 1024`. -/
def blobSizeInKB (size : ℚ) : ℚ := size / 1024

/- `checkBlobSize(blob, max_size)`: size in KB at most the budget. -/
def checkBlobSize {Blob : Type} (blobSize : Blob → ℚ) (blob : Blob)
    (max_size : ℚ) : Bool :=
  decide (blobSizeInKB (blobSize blob) ≤ max_size)

/- The `while (quality >= 0.0)` loop of `getSendableImage`: compress the
   webp blob at the current quality, return it when it fits the budget,
   otherwise retry with `quality - 0.1`. -/
def compressLoop {Blob : Type} (compressAt : ℚ → Blob) (fits : Blob → Bool)
    (quality : ℚ) : Option Blob :=
  if h : 0 ≤ quality then
    let compressedBlob := compressAt quality
    if fits compressedBlob then some compressedBlob
    else compressLoop compressAt fits (quality - 1/10)
  else none
termination_by (⌊quality * 10⌋ + 1).toNat
decreasing_by
  have h1 : ((quality - 1/10) * 10 : ℚ) = quality * 10 - 1 := by ring
  have h2 : ⌊quality * 10 - ((1 : ℤ) : ℚ)⌋ = ⌊quality * 10⌋ - 1 :=
    Int.floor_sub_int (quality * 10) 1
  have h3 : (0 : ℤ) ≤ ⌊quality * 10⌋ :=
    Int.floor_nonneg.mpr (by positivity)
  rw [h1]
  push_cast at h2
  rw [h2]
  omega

/- Number of iterations the loop performs (same structure as
   `compressLoop`). -/
def compressLoopSteps {Blob : Type} (compressAt : ℚ → Blob)
    (fits : Blob → Bool) (quality : ℚ) : Nat :=
  if h : 0 ≤ quality then
    if fits (compressAt quality) then 1
    else 1 + compressLoopSteps compressAt fits (quality - 1/10)
  else 0
termination_by (⌊quality * 10⌋ + 1).toNat
decreasing_by
  have h1 : ((quality - 1/10) * 10 : ℚ) = quality * 10 - 1 := by ring
  have h2 : ⌊quality * 10 - ((1 : ℤ) : ℚ)⌋ = ⌊quality * 10⌋ - 1 :=
    Int.floor_sub_int (quality * 10) 1
  have h3 : (0 : ℤ) ≤ ⌊quality * 10⌋ :=
    Int.floor_nonneg.mpr (by positivity)
  rw [h1]
  push_cast at h2
  rw [h2]
  omega

/- `getSendableImage(initialBase64Image)`: reduce resolution, convert to
   webp, send as-is when within the 220 KB budget, otherwise run the
   quality loop from 0.9. -/
def getSendableImage {Blob : Type} (P : ImagePipeline Blob)
    (initialBase64Image : String) : Option String :=
  let maxImageSize : ℚ := 220
  let blob := P.base64ToBlob initialBase64Image
  let reducedDimBlob := P.reduceResolution blob
  let webpBlob := P.toWebp reducedDimBlob
  if checkBlobSize P.blobSize webpBlob maxImageSize then
    some (P.imageToBase64 webpBlob)
  else
    match compressLoop (fun q => P.compressWebpBlob webpBlob q)
            (fun b => checkBlobSize P.blobSize b maxImageSize) (9/10) with
    | some compressedBlob => some (P.imageToBase64 compressedBlob)
    | none => none

/- `sendFileContent()`: send data.json, prepare both images through
   `getSendableImage`; a missing result throws, and the catch handler calls
   `stopSession`.  On success the grayscale template and its dimensions are
   cached and both images are sent. -/
def sendFileContent {Blob : Type} (P : ImagePipeline Blob)
    (grayscale : String → String) (dims : String → ℚ × ℚ)
    (st : SessionState) (dataOutput templateOutput colorMapOutput : String) :
    SessionState × List Event :=
  if !st.dataChannel then (stopSession st, [Event.stopSessionCalled])
  else
    let evs := [Event.sendData dataOutput]
    let finalTemplateOutput := getSendableImage P templateOutput
    let finalColorMapOutput := getSendableImage P colorMapOutput
    match finalTemplateOutput, finalColorMapOutput with
    | none, _ => (stopSession st, evs ++ [Event.stopSessionCalled])
    | some _, none => (stopSession st, evs ++ [Event.stopSessionCalled])
    | some t, some c =>
        ({ st with grayScaleBase64Template := some (grayscale t),
                   imgDimensions := dims t },
         evs ++ [Event.sendImage t "template", Event.sendImage c "colorMap"])

/-
  Audio-output toggle (`disableAudio` / `feedbackAudioDisabled`).
-/

def audioAlreadyDisabledInstructions : String :=
  "Only notify the user that audio is already disabled. Keep the response very short."

def audioDisabledFeedbackInstructions : String :=
  "Only notify the user that audio has been disabled. Keep the response very short."

/- `feedbackAudioDisabled()`: one response.create with an audio-modality
   override. -/
def feedbackAudioDisabled (st : SessionState) : SessionState × List Event :=
  if !st.dataChannel then (stopSession st, [Event.stopSessionCalled])
  else
    (st, [Event.sendMessage
            (OutMsg.responseCreate (some ["audio"]) (some audioDisabledFeedbackInstructions))])

/- `disableAudio()`: when audio is already off, a single acknowledgment
   response; otherwise session.update to text modality, clear the audio
   state, then the audio-modality farewell. -/
def disableAudio (st : SessionState) : SessionState × List Event :=
  if !st.dataChannel then (stopSession st, [Event.stopSessionCalled])
  else if !st.audioResponsesOn then
    (st, [Event.sendMessage
            (OutMsg.responseCreate none (some audioAlreadyDisabledInstructions))])
  else
    let st1 := handleAudioState st false
    let fb := feedbackAudioDisabled st1
    (fb.1, Event.sendMessage (OutMsg.sessionUpdate ["text"]) :: fb.2)

/-
  Helper lemmas about the quality loop.
-/

/- Anything the loop returns satisfied the size check. -/
theorem compressLoop_fits {Blob : Type} (compressAt : ℚ → Blob) (fits : Blob → Bool)
    (q : ℚ) : ∀ b : Blob, compressLoop compressAt fits q = some b → fits b = true := by
  induction q using compressLoop.induct compressAt fits with
  | case1 x hx cb hfits =>
      intro b hb
      have e : cb = compressAt x := rfl
      rw [e] at hfits
      rw [compressLoop, dif_pos hx, if_pos hfits] at hb
      injection hb with hbe
      subst hbe
      exact hfits
  | case2 x hx cb hfits ih =>
      intro b hb
      have e : cb = compressAt x := rfl
      rw [e] at hfits
      rw [compressLoop, dif_pos hx, if_neg hfits] at hb
      exact ih b hb
  | case3 x hx =>
      intro b hb
      rw [compressLoop, dif_neg hx] at hb
      exact Option.noConfusion hb

/- When no quality step ever fits, the loop reports absence. -/
theorem compressLoop_none_of_never {Blob : Type} (compressAt : ℚ → Blob)
    (fits : Blob → Bool) (hf : ∀ b, fits b = false) (q : ℚ) :
    compressLoop compressAt fits q = none := by
  induction q using compressLoop.induct compressAt fits with
  | case1 x hx cb hfits =>
      have e : cb = compressAt x := rfl
      rw [e] at hfits
      rw [hf] at hfits
      exact Bool.noConfusion hfits
  | case2 x hx cb hfits ih =>
      have e : cb = compressAt x := rfl
      rw [e] at hfits
      rw [compressLoop, dif_pos hx, if_neg hfits]
      exact ih
  | case3 x hx =>
      rw [compressLoop, dif_neg hx]

/- The number of loop iterations is bounded by the quality measure. -/
theorem compressLoopSteps_le {Blob : Type} (compressAt : ℚ → Blob)
    (fits : Blob → Bool) (q : ℚ) :
    compressLoopSteps compressAt fits q ≤ (⌊q * 10⌋ + 1).toNat := by
  induction q using compressLoopSteps.induct compressAt fits with
  | case1 x hx hfits =>
      rw [compressLoopSteps, dif_pos hx, if_pos hfits]
      have h3 : (0 : ℤ) ≤ ⌊x * 10⌋ :=
        Int.floor_nonneg.mpr (by positivity)
      omega
  | case2 x hx hfits ih =>
      rw [compressLoopSteps, dif_pos hx, if_neg hfits]
      have key : ⌊(x - 1/10) * 10⌋ = ⌊x * 10⌋ - 1 := by
        have h1 : ((x - 1/10) * 10 : ℚ) = x * 10 - 1 := by ring
        rw [h1]
        exact_mod_cast Int.floor_sub_int (x * 10) 1
      have h3 : (0 : ℤ) ≤ ⌊x * 10⌋ :=
        Int.floor_nonneg.mpr (by positivity)
      rw [key] at ih
      omega
  | case3 x hx =>
      rw [compressLoopSteps, dif_neg hx]
      exact Nat.zero_le _

/- Starting from quality 0.9 the loop performs at most 10 iterations. -/
theorem compressLoopSteps_from_09 {Blob : Type} (compressAt : ℚ → Blob)
    (fits : Blob → Bool) :
    compressLoopSteps compressAt fits (9/10) ≤ 10 := by
  have h := compressLoopSteps_le compressAt fits (9/10)
  have h9 : ((9 : ℚ)/10) * 10 = 9 := by norm_num
  rw [h9] at h
  norm_num at h
  exact h

/- A blob pipeline whose size check always fails makes `getSendableImage`
   return absence. -/
theorem getSendableImage_none_of_oversized {Blob : Type} (P : ImagePipeline Blob)
    (h : ∀ b : Blob, checkBlobSize P.blobSize b 220 = false) (img : String) :
    getSendableImage P img = none := by
  simp only [getSendableImage]
  rw [h]
  simp only [Bool.false_eq_true, if_false]
  rw [compressLoop_none_of_never _ _ h]

/-
  Concrete fixtures used to instantiate theorems with hypotheses.
-/

/- A marker renderer that leaves the image unchanged (any renderer works for
   the control-flow claims). -/
def renderId : String → ℚ → ℚ → ℚ → String := fun img _ _ _ => img

/- A fully bootstrapped session state. -/
def stActive : SessionState :=
  { peerConnection := true, audioElement := true, localStream := true,
    dataChannel := true, elements := true, audioResponsesOn := false,
    grayScaleBase64Template := some "grayTemplate",
    lastCoords := placeholderCoords, imgDimensions := (600, 400) }

/- A pipeline every blob of which exceeds the byte budget. -/
def hugePipeline : ImagePipeline Unit :=
  { base64ToBlob := fun _ => (), reduceResolution := fun b => b,
    toWebp := fun b => b, compressWebpBlob := fun b _ => b,
    blobSize := fun _ => 1000000000, imageToBase64 := fun _ => "img" }

theorem hugePipeline_oversized :
    ∀ b : Unit, checkBlobSize hugePipeline.blobSize b 220 = false := by
  intro b
  simp [checkBlobSize, hugePipeline, blobSizeInKB]
  norm_num

/-
  Claim theorems.
-/

/-- C1: for the default threshold 5, `checkPointedPositionVariation` returns
false when both the current and the last coordinate pair are absent, true
when exactly one of them is absent, and, when both are present, true exactly
when some per-axis absolute difference is at least the threshold. -/
theorem checkPointedPositionVariation_cases :
    (∀ cx cy lx ly : Option ℚ, (cx.isNone ∨ cy.isNone) → (lx.isNone ∨ ly.isNone) →
       checkPointedPositionVariation cx cy lx ly 5 = false) ∧
    (∀ cx cy lx ly : Option ℚ, (cx.isSome ∧ cy.isSome) → (lx.isNone ∨ ly.isNone) →
       checkPointedPositionVariation cx cy lx ly 5 = true) ∧
    (∀ cx cy lx ly : Option ℚ, (cx.isNone ∨ cy.isNone) → (lx.isSome ∧ ly.isSome) →
       checkPointedPositionVariation cx cy lx ly 5 = true) ∧
    (∀ a1 a2 b1 b2 : ℚ,
       checkPointedPositionVariation (some a1) (some a2) (some b1) (some b2) 5 = true ↔
         (5 ≤ |a1 - b1| ∨ 5 ≤ |a2 - b2|)) := by
  refine ⟨?_, ?_, ?_, ?_⟩
  · intro cx cy lx ly hc hl
    cases cx <;> cases cy <;> cases lx <;> cases ly <;>
      simp_all [checkPointedPositionVariation]
  · intro cx cy lx ly hc hl
    cases cx <;> cases cy <;> cases lx <;> cases ly <;>
      simp_all [checkPointedPositionVariation]
  · intro cx cy lx ly hc hl
    cases cx <;> cases cy <;> cases lx <;> cases ly <;>
      simp_all [checkPointedPositionVariation]
  · intro a1 a2 b1 b2
    simp [checkPointedPositionVariation, ge_iff_le]

/-- Witness for C1 at concrete coordinate pairs. -/
theorem checkPointedPositionVariation_cases_witness :
    checkPointedPositionVariation none none none none 5 = false ∧
    checkPointedPositionVariation (some 1) (some 2) none none 5 = true ∧
    checkPointedPositionVariation none none (some 1) (some 2) 5 = true ∧
    (checkPointedPositionVariation (some 0) (some 0) (some 6) (some 0) 5 = true ↔
       (5 ≤ |(0 : ℚ) - 6| ∨ 5 ≤ |(0 : ℚ) - 0|)) :=
  ⟨checkPointedPositionVariation_cases.1 none none none none (Or.inl rfl) (Or.inl rfl),
   checkPointedPositionVariation_cases.2.1 (some 1) (some 2) none none ⟨rfl, rfl⟩ (Or.inl rfl),
   checkPointedPositionVariation_cases.2.2.1 none none (some 1) (some 2) (Or.inl rfl) ⟨rfl, rfl⟩,
   checkPointedPositionVariation_cases.2.2.2 0 0 6 0⟩

/-- C2 counterexample: the initial `lastCoords` placeholder (100000, 100000)
is a present coordinate pair, not an "absent"-like sentinel.  On the very
first detection cycle the detector returns true when the user starts in the
not-pointing state, and returns false for a pointing user whose coordinates
happen to lie within the threshold of the placeholder — both contrary to the
claim. -/
theorem initial_lastCoords_sentinel_cex :
    (resetLastCoords stActive).lastCoords = { lastX := some 100000, lastY := some 100000 } ∧
    checkPointedPositionVariation none none
      (resetLastCoords stActive).lastCoords.lastX
      (resetLastCoords stActive).lastCoords.lastY 5 = true ∧
    checkPointedPositionVariation (some 99998) (some 99998)
      (resetLastCoords stActive).lastCoords.lastX
      (resetLastCoords stActive).lastCoords.lastY 5 = false := by
  refine ⟨rfl, rfl, ?_⟩
  simp [resetLastCoords, placeholderCoords, checkPointedPositionVariation]
  norm_num

/-- C2 amended: at session start `lastCoords` is set to the placeholder pair
(100000, 100000), which counts as a present position; hence the first
detection cycle reports a change when the user starts not pointing, and when
the user is pointing it reports a change exactly when some axis differs from
100000 by at least the threshold 5. -/
theorem initial_lastCoords_placeholder (st : SessionState) :
    (resetLastCoords st).lastCoords = { lastX := some 100000, lastY := some 100000 } ∧
    checkPointedPositionVariation none none
      (resetLastCoords st).lastCoords.lastX
      (resetLastCoords st).lastCoords.lastY 5 = true ∧
    (∀ x y : ℚ,
       checkPointedPositionVariation (some x) (some y)
         (resetLastCoords st).lastCoords.lastX
         (resetLastCoords st).lastCoords.lastY 5 = true ↔
         (5 ≤ |x - 100000| ∨ 5 ≤ |y - 100000|)) := by
  refine ⟨rfl, rfl, ?_⟩
  intro x y
  simp [resetLastCoords, placeholderCoords, checkPointedPositionVariation, ge_iff_le]

/-- C3 counterexample: on a detected change the driver mutates `lastCoords`
first and only then constructs and sends the position message — the trace
below has the `setLastCoords` mutation at position 0 and the message send at
position 1, so the mutation does not happen after the message is built. -/
theorem lastCoords_update_order_cex :
    (sendPointedPositionIfNecessary renderId stActive (some 0) (some 0) none).2 =
      [Event.setLastCoords (some 0) (some 0),
       Event.sendMessage (OutMsg.conversationItemCreate
         [ContentPart.inputText pointingText,
          ContentPart.inputImage "grayTemplate",
          ContentPart.inputText ""])] ∧
    (sendPointedPositionIfNecessary renderId stActive (some 0) (some 0) none).1.lastCoords =
      { lastX := some 0, lastY := some 0 } := by
  have hch : checkPointedPositionVariation (some 0) (some 0)
      (some 100000) (some 100000) 5 = true := by
    simp [checkPointedPositionVariation]
    norm_num
  constructor <;>
    · unfold sendPointedPositionIfNecessary
      simp [stActive, placeholderCoords, hch, sendImgWithPositionAndHotspot,
            drawPointedPosition, hotspotText, renderId]

/-- C3 amended: whenever a change is detected, `lastCoords` is updated to
the new snapshot **before** the outgoing position message is constructed and
sent (remember-then-send): the mutation is the first recorded action, every
other action of the flow comes after it, and the resulting state stores the
new snapshot. -/
theorem lastCoords_update_before_send (render : String → ℚ → ℚ → ℚ → String)
    (st : SessionState) (cx cy : Option ℚ) (hs : Option String)
    (hel : st.elements = true)
    (hch : checkPointedPositionVariation cx cy st.lastCoords.lastX st.lastCoords.lastY 5 = true) :
    (∃ rest : List Event,
       (sendPointedPositionIfNecessary render st cx cy hs).2 =
         Event.setLastCoords cx cy :: rest) ∧
    (sendPointedPositionIfNecessary render st cx cy hs).1.lastCoords =
      { lastX := cx, lastY := cy } := by
  unfold sendPointedPositionIfNecessary
  rw [hel]
  simp only [Bool.not_true, Bool.false_eq_true, if_false, hch, if_true]
  cases h : sendImgWithPositionAndHotspot render st.grayScaleBase64Template
      st.dataChannel cx cy hs with
  | ok m => exact ⟨⟨[Event.sendMessage m], rfl⟩, rfl⟩
  | error e => exact ⟨⟨[Event.stopSessionCalled], rfl⟩, rfl⟩

/-- Witness for the amended C3 at a concrete change. -/
theorem lastCoords_update_before_send_witness :
    (∃ rest : List Event,
       (sendPointedPositionIfNecessary renderId stActive (some 7) (some 8) none).2 =
         Event.setLastCoords (some 7) (some 8) :: rest) ∧
    (sendPointedPositionIfNecessary renderId stActive (some 7) (some 8) none).1.lastCoords =
      { lastX := some 7, lastY := some 8 } :=
  lastCoords_update_before_send renderId stActive (some 7) (some 8) none rfl
    (by simp [stActive, placeholderCoords, checkPointedPositionVariation]; norm_num)

/-- C7: on a turn boundary where the detector reports no change between the
polled pointing state and `lastCoords`, the driver does nothing — the state
(including `lastCoords`) is returned untouched and the action trace is
empty, so no conversational message goes out. -/
theorem no_change_does_nothing (render : String → ℚ → ℚ → ℚ → String)
    (st : SessionState) (cx cy : Option ℚ) (hs : Option String)
    (hel : st.elements = true)
    (hch : checkPointedPositionVariation cx cy st.lastCoords.lastX st.lastCoords.lastY 5 = false) :
    sendPointedPositionIfNecessary render st cx cy hs = (st, []) := by
  unfold sendPointedPositionIfNecessary
  rw [hel]
  simp [hch]

/-- Witness for C7: pointer moved from (3, 3) to (4, 4), below threshold. -/
theorem no_change_does_nothing_witness :
    sendPointedPositionIfNecessary renderId
      { stActive with lastCoords := { lastX := some 3, lastY := some 3 } }
      (some 4) (some 4) none =
      ({ stActive with lastCoords := { lastX := some 3, lastY := some 3 } }, []) :=
  no_change_does_nothing renderId
    { stActive with lastCoords := { lastX := some 3, lastY := some 3 } }
    (some 4) (some 4) none rfl
    (by simp [stActive, checkPointedPositionVariation]; norm_num)

/-- C4: when `getSendableImage` cannot bring an asset within the byte budget
(for the template or the color map), the bootstrap is fatal: `stopSession`
runs (releasing the data channel, local stream, peer connection and audio
element) and no image is ever sent — the asset is not silently omitted. -/
theorem unsendable_image_aborts_bootstrap {Blob : Type} (P : ImagePipeline Blob)
    (grayscale : String → String) (dims : String → ℚ × ℚ) (st : SessionState)
    (d t c : String) (hdc : st.dataChannel = true)
    (h : getSendableImage P t = none ∨ getSendableImage P c = none) :
    sendFileContent P grayscale dims st d t c =
      (stopSession st, [Event.sendData d, Event.stopSessionCalled]) ∧
    (stopSession st).dataChannel = false ∧
    (stopSession st).localStream = false ∧
    (stopSession st).peerConnection = false ∧
    (stopSession st).audioElement = false := by
  have hres : ∀ st' : SessionState,
      (stopSession st').dataChannel = false ∧ (stopSession st').localStream = false ∧
      (stopSession st').peerConnection = false ∧ (stopSession st').audioElement = false := by
    intro st'
    unfold stopSession handleAudioState
    split <;> exact ⟨rfl, rfl, rfl, rfl⟩
  refine ⟨?_, (hres st).1, (hres st).2.1, (hres st).2.2.1, (hres st).2.2.2⟩
  rcases h with h | h
  · simp [sendFileContent, hdc, h]
  · cases hg : getSendableImage P t with
    | none => simp [sendFileContent, hdc, hg]
    | some tv => simp [sendFileContent, hdc, hg, h]

/-- Witness for C4: a pipeline whose blobs always exceed the budget makes the
bootstrap tear the session down without sending any image. -/
theorem unsendable_image_aborts_bootstrap_witness :
    sendFileContent hugePipeline (fun s => s) (fun _ => (0, 0)) stActive "data" "tmpl" "cmap" =
      (stopSession stActive, [Event.sendData "data", Event.stopSessionCalled]) ∧
    (stopSession stActive).dataChannel = false ∧
    (stopSession stActive).localStream = false ∧
    (stopSession stActive).peerConnection = false ∧
    (stopSession stActive).audioElement = false :=
  unsendable_image_aborts_bootstrap hugePipeline (fun s => s) (fun _ => (0, 0))
    stActive "data" "tmpl" "cmap" rfl
    (Or.inl (getSendableImage_none_of_oversized hugePipeline hugePipeline_oversized "tmpl"))

/-- C5: the recompression loop of `getSendableImage` is total and bounded —
for every pipeline and image it returns either a payload whose encoded blob
passed the 220 KB size check, or absence; and starting from quality 0.9 in
0.1 decrements it performs at most 10 quality steps. -/
theorem compress_budget_convergence {Blob : Type} (P : ImagePipeline Blob) (img : String) :
    ((∃ b : Blob, getSendableImage P img = some (P.imageToBase64 b) ∧
        checkBlobSize P.blobSize b 220 = true) ∨
      getSendableImage P img = none) ∧
    compressLoopSteps
      (fun q => P.compressWebpBlob (P.toWebp (P.reduceResolution (P.base64ToBlob img))) q)
      (fun b => checkBlobSize P.blobSize b 220) (9/10) ≤ 10 := by
  constructor
  · simp only [getSendableImage]
    by_cases h0 :
        checkBlobSize P.blobSize (P.toWebp (P.reduceResolution (P.base64ToBlob img))) 220 = true
    · rw [if_pos h0]
      exact Or.inl ⟨P.toWebp (P.reduceResolution (P.base64ToBlob img)), rfl, h0⟩
    · rw [if_neg h0]
      cases hc : compressLoop
          (fun q => P.compressWebpBlob (P.toWebp (P.reduceResolution (P.base64ToBlob img))) q)
          (fun b => checkBlobSize P.blobSize b 220) (9/10) with
      | none => exact Or.inr rfl
      | some b =>
          exact Or.inl ⟨b, rfl, compressLoop_fits _ _ _ b hc⟩
  · exact compressLoopSteps_from_09 _ _

/-- C8: `sleep_word` handling — with audio already disabled, exactly one
acknowledgment response is requested (no modality override) and no
session.update is sent; with audio enabled, the session modality is switched
to text, `audioResponsesOn` is cleared, and exactly one audio-modality
farewell response is requested. -/
theorem disableAudio_spec (st : SessionState) (hdc : st.dataChannel = true)
    (hel : st.elements = true) :
    (st.audioResponsesOn = false →
       disableAudio st =
         (st, [Event.sendMessage
                 (OutMsg.responseCreate none (some audioAlreadyDisabledInstructions))])) ∧
    (st.audioResponsesOn = true →
       (disableAudio st).1.audioResponsesOn = false ∧
       (disableAudio st).2 =
         [Event.sendMessage (OutMsg.sessionUpdate ["text"]),
          Event.sendMessage
            (OutMsg.responseCreate (some ["audio"]) (some audioDisabledFeedbackInstructions))]) := by
  constructor
  · intro hoff
    simp [disableAudio, hdc, hoff]
  · intro hon
    constructor <;>
      simp [disableAudio, feedbackAudioDisabled, handleAudioState, hdc, hel, hon]

/-- Witness for C8 in both audio states. -/
theorem disableAudio_spec_witness :
    disableAudio stActive =
      (stActive, [Event.sendMessage
                    (OutMsg.responseCreate none (some audioAlreadyDisabledInstructions))]) ∧
    ((disableAudio { stActive with audioResponsesOn := true }).1.audioResponsesOn = false ∧
     (disableAudio { stActive with audioResponsesOn := true }).2 =
       [Event.sendMessage (OutMsg.sessionUpdate ["text"]),
        Event.sendMessage
          (OutMsg.responseCreate (some ["audio"]) (some audioDisabledFeedbackInstructions))]) :=
  ⟨(disableAudio_spec stActive rfl rfl).1 rfl,
   (disableAudio_spec { stActive with audioResponsesOn := true } rfl rfl).2 rfl⟩

/-- C9: an inbound event of the error type terminates the session (full
teardown via `stopSession`) exactly when its error code is not the benign
"conversation_already_has_active_response"; an event carrying that code
leaves the state untouched and performs no action. -/
theorem error_event_termination (render : String → ℚ → ℚ → ℚ → String)
    (st : SessionState) (cx cy : Option ℚ) (hs : Option String)
    (code : Option String) :
    (code = some "conversation_already_has_active_response" →
       handleDataChannelMessages render st { type := "error", errorCode := code } cx cy hs =
         (st, [])) ∧
    (code ≠ some "conversation_already_has_active_response" →
       handleDataChannelMessages render st { type := "error", errorCode := code } cx cy hs =
         (stopSession st, [Event.stopSessionCalled])) := by
  constructor
  · intro hb
    simp [handleDataChannelMessages, hb]
  · intro hb
    simp [handleDataChannelMessages, hb]

/-- Witness for C9 with the benign code and with another code. -/
theorem error_event_termination_witness :
    handleDataChannelMessages renderId stActive
      { type := "error", errorCode := some "conversation_already_has_active_response" }
      none none none = (stActive, []) ∧
    handleDataChannelMessages renderId stActive
      { type := "error", errorCode := some "session_expired" } none none none =
      (stopSession stActive, [Event.stopSessionCalled]) :=
  ⟨(error_event_termination renderId stActive none none none
      (some "conversation_already_has_active_response")).1 rfl,
   (error_event_termination renderId stActive none none none
      (some "session_expired")).2 (by simp)⟩

/-- C10: a pointing state with exactly one absent coordinate is treated as
fully not-pointing: the detector classifies it exactly like the both-absent
state, the update flow builds the "user is not pointing" message, and
`drawPointedPosition` returns the input image unmodified whenever either
coordinate is absent. -/
theorem half_absent_treated_as_not_pointing :
    (∀ (x : ℚ) (lx ly : Option ℚ),
       checkPointedPositionVariation (some x) none lx ly 5 =
         checkPointedPositionVariation none none lx ly 5) ∧
    (∀ (y : ℚ) (lx ly : Option ℚ),
       checkPointedPositionVariation none (some y) lx ly 5 =
         checkPointedPositionVariation none none lx ly 5) ∧
    (∀ (x : ℚ) (cx cy : Option ℚ),
       checkPointedPositionVariation cx cy (some x) none 5 =
         checkPointedPositionVariation cx cy none none 5) ∧
    (∀ (y : ℚ) (cx cy : Option ℚ),
       checkPointedPositionVariation cx cy none (some y) 5 =
         checkPointedPositionVariation cx cy none none 5) ∧
    (∀ (render : String → ℚ → ℚ → ℚ → String) (tmpl : String) (x : ℚ) (hs : Option String),
       sendImgWithPositionAndHotspot render (some tmpl) true (some x) none hs =
         Except.ok (OutMsg.conversationItemCreate [ContentPart.inputText notPointingText]) ∧
       sendImgWithPositionAndHotspot render (some tmpl) true none (some x) hs =
         Except.ok (OutMsg.conversationItemCreate [ContentPart.inputText notPointingText])) ∧
    (∀ (render : String → ℚ → ℚ → ℚ → String) (img : String) (x y : Option ℚ) (r : ℚ),
       (x = none ∨ y = none) → drawPointedPosition render img x y r = img) := by
  refine ⟨?_, ?_, ?_, ?_, ?_, ?_⟩
  · intro x lx ly
    cases lx <;> cases ly <;> simp [checkPointedPositionVariation]
  · intro y lx ly
    cases lx <;> cases ly <;> simp [checkPointedPositionVariation]
  · intro x cx cy
    cases cx <;> cases cy <;> simp [checkPointedPositionVariation]
  · intro y cx cy
    cases cx <;> cases cy <;> simp [checkPointedPositionVariation]
  · intro render tmpl x hs
    constructor <;> simp [sendImgWithPositionAndHotspot]
  · intro render img x y r h
    rcases h with h | h
    · subst h; cases y <;> rfl
    · subst h; cases x <;> rfl

/- Turn-completion actions of the committed-input handler: the response
   request and the latency-timer start. -/
def isResponseRequestOrTimer : Event → Bool
  | Event.sendMessage (OutMsg.responseCreate none none) => true
  | Event.startTimer => true
  | _ => false

/- Every successful result of `sendImgWithPositionAndHotspot` is a
   conversation item. -/
theorem sendImgWithPositionAndHotspot_ok_conv
    (render : String → ℚ → ℚ → ℚ → String) (g : Option String) (dc : Bool)
    (cx cy : Option ℚ) (hs : Option String) (m : OutMsg)
    (h : sendImgWithPositionAndHotspot render g dc cx cy hs = Except.ok m) :
    ∃ content, m = OutMsg.conversationItemCreate content := by
  unfold sendImgWithPositionAndHotspot at h
  cases g with
  | none => exact Except.noConfusion h
  | some tmpl =>
    cases dc with
    | false =>
        simp only [Bool.not_false, if_true] at h
        exact Except.noConfusion h
    | true =>
        simp only [Bool.not_true, Bool.false_eq_true, if_false] at h
        by_cases hnull : (cx.isNone || cy.isNone) = true
        · rw [if_pos hnull] at h
          injection h with he
          exact ⟨_, he.symm⟩
        · rw [if_neg hnull] at h
          injection h with he
          exact ⟨_, he.symm⟩

/- The pointed-position flow never emits a response request or a timer
   start. -/
theorem sendPointedPositionIfNecessary_no_turn_events
    (render : String → ℚ → ℚ → ℚ → String) (st : SessionState)
    (cx cy : Option ℚ) (hs : Option String) :
    ∀ e ∈ (sendPointedPositionIfNecessary render st cx cy hs).2,
      isResponseRequestOrTimer e = false := by
  intro e he
  unfold sendPointedPositionIfNecessary at he
  split at he
  · simp only [List.mem_singleton] at he
    subst he
    rfl
  · split at he
    · rcases hm : sendImgWithPositionAndHotspot render st.grayScaleBase64Template
          st.dataChannel cx cy hs with m | m
      all_goals rw [hm] at he
      all_goals simp only [List.mem_cons, List.mem_singleton, List.not_mem_nil, or_false] at he
      · rcases he with he | he <;> subst he <;> rfl
      · obtain ⟨content, hc⟩ :=
          sendImgWithPositionAndHotspot_ok_conv render st.grayScaleBase64Template
            st.dataChannel cx cy hs m hm
        subst hc
        rcases he with he | he <;> subst he <;> rfl
    · simp only [List.not_mem_nil] at he

/- In a concatenated trace, an action satisfying `p` (only found in the
   prefix) always precedes an action satisfying `q` (only found in the
   suffix). -/
theorem append_getD_ordered {α : Type} (p q : α → Bool) (pre post : List α)
    (dp dq : α) (hdp : p dp = false) (hdq : q dq = false)
    (hpost : ∀ e ∈ post, p e = false) (hpre : ∀ e ∈ pre, q e = false)
    (i j : ℕ) (hp : p ((pre ++ post).getD i dp) = true)
    (hq : q ((pre ++ post).getD j dq) = true) : i < j := by
  have hi : i < (pre ++ post).length := by
    by_contra hge
    push_neg at hge
    rw [List.getD_eq_default _ _ hge, hdp] at hp
    exact Bool.noConfusion hp
  have hj : j < (pre ++ post).length := by
    by_contra hge
    push_neg at hge
    rw [List.getD_eq_default _ _ hge, hdq] at hq
    exact Bool.noConfusion hq
  rw [List.getD_eq_getElem _ _ hi] at hp
  rw [List.getD_eq_getElem _ _ hj] at hq
  have hilt : i < pre.length := by
    by_contra hge
    push_neg at hge
    have hmem : (pre ++ post)[i] ∈ post := by
      rw [List.getElem_append_right hge]
      exact List.getElem_mem _
    rw [hpost _ hmem] at hp
    exact Bool.noConfusion hp
  have hjge : pre.length ≤ j := by
    by_contra hlt
    push_neg at hlt
    have hmem : (pre ++ post)[j] ∈ pre := by
      rw [List.getElem_append_left hlt]
      exact List.getElem_mem _
    rw [hpre _ hmem] at hq
    exact Bool.noConfusion hq
  omega

/-- C6: on an "input committed" event, every position-context message in
the handler's action trace precedes both the response request
(response.create) and the start of the response-latency timer — the
pointed-position check completes before a response is requested. -/
theorem inputCommitted_position_check_first
    (render : String → ℚ → ℚ → ℚ → String) (st : SessionState)
    (cx cy : Option ℚ) (hs code : Option String) (i j : ℕ)
    (hp : isConversationSend
      ((handleDataChannelMessages render st
          { type := "input_audio_buffer.committed", errorCode := code }
          cx cy hs).2.getD i Event.startTimer) = true)
    (hq : isResponseRequestOrTimer
      ((handleDataChannelMessages render st
          { type := "input_audio_buffer.committed", errorCode := code }
          cx cy hs).2.getD j (Event.setLastCoords none none)) = true) :
    i < j := by
  have hshape : (handleDataChannelMessages render st
      { type := "input_audio_buffer.committed", errorCode := code } cx cy hs).2 =
      (sendPointedPositionIfNecessary render st cx cy hs).2 ++
        (if (sendPointedPositionIfNecessary render st cx cy hs).1.dataChannel
         then [Event.sendMessage (OutMsg.responseCreate none none), Event.startTimer]
         else [Event.stopSessionCalled]) := by
    have h1 : ¬("input_audio_buffer.committed" = "invalid_request_error") := by simp
    have h2 : ¬("input_audio_buffer.committed" = "error") := by simp
    unfold handleDataChannelMessages
    rw [if_neg h1, if_neg h2, if_pos rfl]
    by_cases hdc : (sendPointedPositionIfNecessary render st cx cy hs).1.dataChannel = true
    · rw [if_pos hdc, if_pos hdc]
    · rw [if_neg hdc, if_neg hdc]
  rw [hshape] at hp hq
  refine append_getD_ordered isConversationSend isResponseRequestOrTimer
    (sendPointedPositionIfNecessary render st cx cy hs).2 _
    Event.startTimer (Event.setLastCoords none none) rfl rfl ?_ ?_ i j hp hq
  · intro e he
    split at he <;> simp only [List.mem_cons, List.mem_singleton, List.not_mem_nil, or_false] at he
    · rcases he with he | he <;> subst he <;> rfl
    · subst he
      rfl
  · exact sendPointedPositionIfNecessary_no_turn_events render st cx cy hs

/-- Witness for C6: at a concrete committed-input event the position message
sits at index 1 and the response request at index 2 of the trace. -/
theorem inputCommitted_position_check_first_witness : (1 : ℕ) < 2 := by
  have hch : checkPointedPositionVariation (some 0) (some 0)
      (some 100000) (some 100000) 5 = true := by
    simp [checkPointedPositionVariation]
    norm_num
  have htr : (handleDataChannelMessages renderId stActive
      { type := "input_audio_buffer.committed", errorCode := none }
      (some 0) (some 0) none).2 =
      [Event.setLastCoords (some 0) (some 0),
       Event.sendMessage (OutMsg.conversationItemCreate
         [ContentPart.inputText pointingText,
          ContentPart.inputImage "grayTemplate",
          ContentPart.inputText ""]),
       Event.sendMessage (OutMsg.responseCreate none none),
       Event.startTimer] := by
    simp [handleDataChannelMessages, sendPointedPositionIfNecessary, stActive,
          placeholderCoords, hch, sendImgWithPositionAndHotspot,
          drawPointedPosition, hotspotText, renderId]
  exact inputCommitted_position_check_first renderId stActive
    (some 0) (some 0) none none 1 2 (by rw [htr]; rfl) (by rw [htr]; rfl)

/-- Witness for C10 at concrete half-absent states. -/
theorem half_absent_treated_as_not_pointing_witness :
    checkPointedPositionVariation (some 4) none (some 1) (some 2) 5 =
      checkPointedPositionVariation none none (some 1) (some 2) 5 ∧
    sendImgWithPositionAndHotspot renderId (some "grayTemplate") true (some 4) none none =
      Except.ok (OutMsg.conversationItemCreate [ContentPart.inputText notPointingText]) ∧
    drawPointedPosition renderId "img" (some 4) none 9 = "img" :=
  ⟨half_absent_treated_as_not_pointing.1 4 (some 1) (some 2),
   (half_absent_treated_as_not_pointing.2.2.2.2.1 renderId "grayTemplate" 4 none).1,
   half_absent_treated_as_not_pointing.2.2.2.2.2 renderId "img" (some 4) none 9 (Or.inr rfl)⟩
